import Mathlib

/-!
Shallow embedding of `src/zalevani.py` (plant-watering decision pipeline).

Modelling conventions:
* Python floats are modelled as exact rationals (`ℚ`); none of the verified
  properties concerns binary floating-point rounding error.
* Time is measured on a single axis of local (Europe/Prague) wall-clock time,
  in units of days.  A Python `datetime` is either naive (its stored wall
  time, no zone) or aware (a wall time together with its own UTC offset); the
  fixed local offset is passed explicitly as `tz`.  `datetime.date()` on a
  local time is `⌊·⌋` on this axis, and `datetime.now(LOCAL_TZ)` becomes an
  explicit `now : ℚ` parameter threaded through every function that reads the
  clock.
* `datetime.fromisoformat(...).astimezone(LOCAL_TZ)` is a standard-library
  call; it is modelled by an abstract `parse : String → Option ℚ` argument
  returning the parsed instant on the local-day axis, `none` when parsing
  raises.
* Python exceptions inside the functions under study are modelled by
  `Option`; all embedded functions are total, mirroring the `try/except`
  structure of the source.
-/

/-- Python truncation `int(x)` for a float `x`: rounds toward zero. -/
def pyTrunc (q : ℚ) : ℤ :=
  if q < 0 then ⌈q⌉ else ⌊q⌋

/-- Round-half-to-even to the nearest integer, the rounding used by Python's
`round` builtin and by the `:.0f` format specifier. -/
def roundHalfEven (q : ℚ) : ℤ :=
  if q - ⌊q⌋ < 1/2 then ⌊q⌋
  else if 1/2 < q - ⌊q⌋ then ⌊q⌋ + 1
  else if ⌊q⌋ % 2 = 0 then ⌊q⌋ else ⌊q⌋ + 1

/-- Python `round(x, 1)`: round to one decimal place, half to even
(decimal idealisation of the float builtin). -/
def pyRound1 (q : ℚ) : ℚ :=
  (roundHalfEven (10 * q) : ℚ) / 10

/-- Python `f"{x:.0f}"` formatting of a float, as the integer it prints. -/
def pyFormatF0 (q : ℚ) : ℤ :=
  roundHalfEven q

/-- Python `x or d` for `x : Optional[int]`: both `None` and `0` are falsy,
so the default `d` replaces them; any nonzero integer is returned as is.
This is the exact semantics of line 188, `days_since(...) or 999`. -/
def pyOr (x : Option ℤ) (d : ℤ) : ℤ :=
  match x with
  | none => d
  | some v => if v = 0 then d else v

/-- Character-level body of `date_str.replace("Z", "+00:00")` (line 84):
every occurrence of the single character `Z` becomes the string `+00:00`. -/
def replaceZChars : List Char → List Char
  | [] => []
  | c :: rest =>
    if c = 'Z' then '+' :: '0' :: '0' :: ':' :: '0' :: '0' :: replaceZChars rest
    else c :: replaceZChars rest

/-- Python `date_str.replace("Z", "+00:00")` from line 84 of the source. -/
def pyReplaceZ (s : String) : String :=
  String.mk (replaceZChars s.data)

/-- A Python `datetime` value as the forecast items carry it: either naive
(a bare wall-clock reading, `tzinfo is None`) or aware (a wall-clock reading
together with the UTC offset of its own zone). -/
inductive PyDatetime where
  | naive (wall : ℚ)
  | aware (wall : ℚ) (offset : ℚ)
deriving DecidableEq

/-- Normalisation performed on each forecast timestamp by lines 94–98:
a naive timestamp gets the local zone attached (`t.replace(tzinfo=LOCAL_TZ)`),
so its wall reading is reinterpreted as local time unchanged; an aware
timestamp is converted (`t.astimezone(LOCAL_TZ)`), preserving the instant:
local wall = stored wall − own offset + local offset `tz`. -/
def localize (tz : ℚ) : PyDatetime → ℚ
  | .naive wall => wall
  | .aware wall offset => wall - offset + tz

/-- Pydantic model `WeatherNow` (lines 30–35). -/
structure WeatherNow where
  temp_c : ℚ
  humidity_pct : Option ℚ := none
  precipitation_mm : Option ℚ := none
  cloudcover_pct : Option ℚ := none
  description : Option String := none
deriving DecidableEq

/-- Pydantic model `WeatherForecastItem` (lines 37–42). -/
structure WeatherForecastItem where
  time : PyDatetime
  precip_prob_pct : Option ℚ := none
  expected_precip_mm : Option ℚ := none
  temp_c : Option ℚ := none
  humidity_pct : Option ℚ := none
deriving DecidableEq

/-- Pydantic model `WeatherForecast` (lines 44–45). -/
structure WeatherForecast where
  items : List WeatherForecastItem
deriving DecidableEq

/-- Pydantic model `PlantContext` (lines 47–49). -/
structure PlantContext where
  species : Option String := none
  notes : Option String := none
deriving DecidableEq

/-- Pydantic model `DecisionRequest` (lines 51–57). -/
structure DecisionRequest where
  image_url : String
  last_watering_date : Option String := none
  last_watering_amount_ml : Option ℤ := none
  weather_now : WeatherNow
  weather_forecast : WeatherForecast
  plant : Option PlantContext := none
deriving DecidableEq

/-- Pydantic model `DecisionResponse` (lines 59–61). -/
structure DecisionResponse where
  zalevat : Bool
  oduvodneni : String
deriving DecidableEq

/-- `days_since` (lines 80–87).  `if not date_str` catches both `None` and
the empty string; the standard-library parse/zone conversion is the abstract
`parse` applied to the `Z`-rewritten string, yielding the instant on the
local-day axis or `none` when `fromisoformat` raises; `.date()` subtraction
is floor subtraction on that axis.  Total: every failure path returns
`none`, mirroring the `try/except` that returns `None`. -/
def days_since (parse : String → Option ℚ) (now : ℚ)
    (date_str : Option String) : Option ℤ :=
  match date_str with
  | none => none
  | some s =>
    if s = "" then none
    else
      match parse (pyReplaceZ s) with
      | none => none
      | some t => some (⌊now⌋ - ⌊t⌋)

/-- `precip_sum_next_hours` (lines 89–101): sum `expected_precip_mm` over the
forecast items whose normalised timestamp lies in the closed window
`[now, now + hours]`; items with no expected precipitation are skipped. -/
def precip_sum_next_hours (tz now : ℚ) (forecast : WeatherForecast)
    (hours : ℤ) : ℚ :=
  let endt : ℚ := now + (hours : ℚ) / 24
  forecast.items.foldl
    (fun total it =>
      let t := localize tz it.time
      if now ≤ t ∧ t ≤ endt then
        match it.expected_precip_mm with
        | some p => total + p
        | none => total
      else total)
    0

/-- The facts summary dictionary built by `build_messages` (lines 108–116):
derived day count, last amount, forecast rain over 12 h rounded to one
decimal, current temperature and humidity. -/
structure Facts where
  days_since_last_watering : Option ℤ
  last_watering_amount_ml : Option ℤ
  rain_next_12h_mm : ℚ
  now_temp_c : ℚ
  now_rh_pct : Option ℚ
deriving DecidableEq

/-- The facts-summary computation of `build_messages` (lines 108–116); the
surrounding prompt text is irrelevant to the verified properties. -/
def build_messages_facts (parse : String → Option ℚ) (tz now : ℚ)
    (payload : DecisionRequest) : Facts :=
  let dsl := days_since parse now payload.last_watering_date
  let rain12 := precip_sum_next_hours tz now payload.weather_forecast 12
  { days_since_last_watering := dsl
    last_watering_amount_ml := payload.last_watering_amount_ml
    rain_next_12h_mm := pyRound1 rain12
    now_temp_c := payload.weather_now.temp_c
    now_rh_pct := payload.weather_now.humidity_pct }

/-- The override justification f-string of line 201:
`f"{dsl} d od zálivky, {temp:.0f}°C/{int(rh)}% RH, déšť <2 mm/12h → raději zalij."`. -/
def guard_justification (dsl : ℤ) (temp rh : ℚ) : String :=
  toString dsl ++ " d od zálivky, " ++ toString (pyFormatF0 temp) ++ "°C/"
    ++ toString (pyTrunc rh) ++ "% RH, déšť <2 mm/12h → raději zalij."

/-- `consistency_guard` (lines 187–202), as the value returned to the caller.
`dsl` uses Python `or` truthiness (line 188), unknown humidity becomes 100
(line 190), and the override fires only when hot ∧ dry ∧ `dsl ≥ 1` ∧ no
significant rain ∧ the candidate said no. -/
def consistency_guard (parse : String → Option ℚ) (tz now : ℚ)
    (req : DecisionRequest) (res : DecisionResponse) : DecisionResponse :=
  let dsl : ℤ := pyOr (days_since parse now req.last_watering_date) 999
  let temp : ℚ := req.weather_now.temp_c
  let rh : ℚ := req.weather_now.humidity_pct.getD 100
  let rain12 : ℚ := precip_sum_next_hours tz now req.weather_forecast 12
  let hot : Bool := decide (30 ≤ temp)
  let dry : Bool := decide (rh ≤ 40)
  let soon_rain : Bool := decide (2 ≤ rain12)
  if hot && dry && decide (1 ≤ dsl) && !soon_rain && (res.zalevat == false) then
    { zalevat := true, oduvodneni := guard_justification dsl temp rh }
  else
    res

/-- The call `consistency_guard(req, res)` together with the caller's view of
the argument object after the call.  Lines 199–202 assign to the fields of
`res` (pydantic models are mutable) and then return the very same object, so
the pair is (returned response, state of the caller's `res` after the call):
when the override fires both components are the mutated object, otherwise
both are the untouched candidate. -/
def consistency_guard_call (parse : String → Option ℚ) (tz now : ℚ)
    (req : DecisionRequest) (res : DecisionResponse) :
    DecisionResponse × DecisionResponse :=
  let dsl : ℤ := pyOr (days_since parse now req.last_watering_date) 999
  let temp : ℚ := req.weather_now.temp_c
  let rh : ℚ := req.weather_now.humidity_pct.getD 100
  let rain12 : ℚ := precip_sum_next_hours tz now req.weather_forecast 12
  let hot : Bool := decide (30 ≤ temp)
  let dry : Bool := decide (rh ≤ 40)
  let soon_rain : Bool := decide (2 ≤ rain12)
  if hot && dry && decide (1 ≤ dsl) && !soon_rain && (res.zalevat == false) then
    let mutated : DecisionResponse :=
      { zalevat := true, oduvodneni := guard_justification dsl temp rh }
    (mutated, mutated)
  else
    (res, res)

/-- A JSON value, as produced by `json.loads` on the reply text. -/
inductive Json where
  | null
  | bool (b : Bool)
  | num (q : ℚ)
  | str (s : String)
  | arr (items : List Json)
  | obj (fields : List (String × Json))

/-- Key lookup in a JSON object (Python dict keys are unique; first match). -/
def lookupField (fields : List (String × Json)) (key : String) : Option Json :=
  match fields with
  | [] => none
  | (k, v) :: rest => if k = key then some v else lookupField rest key

/-- Pydantic's validation of a single JSON value against a `bool`-annotated
and a `str`-annotated field.  Which non-boolean/non-string JSON values are
additionally coerced depends on the pydantic version and configuration
(v1 is laxer than v2, v2 lax is laxer than v2 strict), so the per-field
validators are abstract functions; the two laws record only what every
pydantic version and mode does: an actual JSON boolean validates to itself
and an actual JSON string validates to itself, never defaulted, never
altered. -/
structure PydanticCoercion where
  boolOf : Json → Option Bool
  strOf : Json → Option String
  boolOf_bool : ∀ b, boolOf (Json.bool b) = some b
  strOf_str : ∀ s, strOf (Json.str s) = some s

/-- The reply-validation step of `call_openai` (lines 172–173):
`json.loads` followed by `DecisionResponse(**data)`.  The argument is the
outcome of `json.loads` on the reply text, `none` when the text is not valid
JSON.  `**data` requires a JSON object (anything else raises); pydantic
ignores extra keys and has no defaults for `DecisionResponse`, so a missing
`zalevat` or `oduvodneni` key is a `ValidationError`, and a present key's
value is validated by the version-dependent field validator `C`.  Every
failure path is an exception in the source, hence `none` here. -/
def call_openai_parse (C : PydanticCoercion) (reply : Option Json) :
    Option DecisionResponse :=
  match reply with
  | none => none
  | some (Json.obj fields) =>
    match lookupField fields "zalevat", lookupField fields "oduvodneni" with
    | some jz, some jo =>
      match C.boolOf jz, C.strOf jo with
      | some b, some s => some { zalevat := b, oduvodneni := s }
      | _, _ => none
    | _, _ => none
  | some _ => none

/-- The field validation common to every pydantic version: a JSON boolean
into `zalevat : bool`, a JSON string into `oduvodneni : str`.  Used to
instantiate closed statements at replies on which all versions and modes
agree (actual booleans and strings), as its laws require. -/
def strictCoercion : PydanticCoercion where
  boolOf := fun j =>
    match j with
    | Json.bool b => some b
    | _ => none
  strOf := fun j =>
    match j with
    | Json.str s => some s
    | _ => none
  boolOf_bool := fun _ => rfl
  strOf_str := fun _ => rfl

/-- Spec-side override trigger, following the amended wording of the
specification: temperature at least 30 °C; humidity known and at most 40 %;
the day count treated as 999 when unknown or zero, otherwise required to be
at least 1; forecast rain over the next 12 hours strictly below 2 mm; and a
candidate decision of "do not water". -/
def spec_guard_fires (parse : String → Option ℚ) (tz now : ℚ)
    (req : DecisionRequest) (res : DecisionResponse) : Bool :=
  decide (30 ≤ req.weather_now.temp_c)
  && (match req.weather_now.humidity_pct with
      | some h => decide (h ≤ 40)
      | none => false)
  && (match days_since parse now req.last_watering_date with
      | none => true
      | some d => decide (d = 0) || decide (1 ≤ d))
  && decide (precip_sum_next_hours tz now req.weather_forecast 12 < 2)
  && (res.zalevat == false)

/-- Claim C9: `days_since` is total over every optional string input: it
returns the unknown sentinel `none` when the input is absent, empty, or the
ISO-8601 parse fails, and (being a total function on every path) it never
raises. -/
theorem days_since_total (parse : String → Option ℚ) (now : ℚ) (s : String) :
    days_since parse now none = none
    ∧ days_since parse now (some "") = none
    ∧ (parse (pyReplaceZ s) = none → days_since parse now (some s) = none) := by
  refine ⟨rfl, rfl, fun h => ?_⟩
  unfold days_since
  by_cases hs : s = ""
  · simp [hs]
  · simp [hs, h]

/-- Witness for C9 at a concrete malformed input. -/
theorem days_since_total_witness :
    (fun _ => (none : Option ℚ)) (pyReplaceZ "abc") = none
    ∧ days_since (fun _ => none) 0 (some "abc") = none :=
  ⟨rfl, (days_since_total (fun _ => none) 0 "abc").2.2 rfl⟩

/-- Claim C10: `days_since` does not clamp to non-negative values — for a
well-formed date whose local calendar day is strictly after today it returns
a negative integer, not the unknown sentinel; and since a negative integer
is truthy, `consistency_guard` uses it directly, the `dsl ≥ 1` condition
fails, and the candidate is returned unchanged whatever the other inputs. -/
theorem days_since_future_negative (parse : String → Option ℚ) (tz now : ℚ)
    (req : DecisionRequest) (res : DecisionResponse) (s : String) (t : ℚ)
    (hdate : req.last_watering_date = some s)
    (hne : s ≠ "")
    (hparse : parse (pyReplaceZ s) = some t)
    (hfuture : ⌊now⌋ < ⌊t⌋) :
    days_since parse now (some s) = some (⌊now⌋ - ⌊t⌋)
    ∧ ⌊now⌋ - ⌊t⌋ < 0
    ∧ consistency_guard parse tz now req res = res := by
  have hds : days_since parse now (some s) = some (⌊now⌋ - ⌊t⌋) := by
    unfold days_since
    simp [hne, hparse]
  refine ⟨hds, by omega, ?_⟩
  have h1 : pyOr (days_since parse now req.last_watering_date) 999
      = ⌊now⌋ - ⌊t⌋ := by
    rw [hdate, hds]
    unfold pyOr
    simp only [if_neg (by omega : ¬(⌊now⌋ - ⌊t⌋ = 0))]
  have h2 : decide (1 ≤ ⌊now⌋ - ⌊t⌋) = false := by
    simp only [decide_eq_false_iff_not]
    omega
  simp only [consistency_guard, h1, h2]
  simp

/-- Witness for C10 at a concrete future date. -/
theorem days_since_future_negative_witness :
    days_since (fun _ => some 5) (1/2) (some "2099-01-01")
      = some (⌊(1/2 : ℚ)⌋ - ⌊(5 : ℚ)⌋)
    ∧ ⌊(1/2 : ℚ)⌋ - ⌊(5 : ℚ)⌋ < 0
    ∧ consistency_guard (fun _ => some 5) 0 (1/2)
        { image_url := "i", last_watering_date := some "2099-01-01",
          weather_now := { temp_c := 35, humidity_pct := some 25 },
          weather_forecast := ⟨[]⟩ }
        { zalevat := false, oduvodneni := "x" }
      = { zalevat := false, oduvodneni := "x" } :=
  days_since_future_negative (fun _ => some 5) 0 (1/2)
    { image_url := "i", last_watering_date := some "2099-01-01",
      weather_now := { temp_c := 35, humidity_pct := some 25 },
      weather_forecast := ⟨[]⟩ }
    { zalevat := false, oduvodneni := "x" }
    "2099-01-01" 5 rfl (by decide) rfl (by norm_num)

/-- Claim C3: when the current humidity is unknown, the guard substitutes
100 % for it, the dryness condition fails, and the candidate is returned
unchanged regardless of every other input. -/
theorem guard_noop_on_unknown_humidity (parse : String → Option ℚ)
    (tz now : ℚ) (req : DecisionRequest) (res : DecisionResponse)
    (h : req.weather_now.humidity_pct = none) :
    consistency_guard parse tz now req res = res := by
  have hdry : decide ((req.weather_now.humidity_pct.getD 100 : ℚ) ≤ 40)
      = false := by
    rw [h]
    norm_num
  simp only [consistency_guard, hdry]
  simp

/-- Witness for C3: hot, long-overdue, rain-free request with unknown
humidity and a negative candidate is left untouched. -/
theorem guard_noop_on_unknown_humidity_witness :
    consistency_guard (fun _ => none) 0 0
      { image_url := "i",
        weather_now := { temp_c := 35 },
        weather_forecast := ⟨[]⟩ }
      { zalevat := false, oduvodneni := "x" }
    = { zalevat := false, oduvodneni := "x" } :=
  guard_noop_on_unknown_humidity (fun _ => none) 0 0
    { image_url := "i",
      weather_now := { temp_c := 35 },
      weather_forecast := ⟨[]⟩ }
    { zalevat := false, oduvodneni := "x" } rfl

/-- Claim C2 (code bug): at a request whose last watering parses to *today*
(`days_since` = known `0`), line 188's `days_since(...) or 999` replaces the
known `0` by 999 because Python treats `0` as falsy, so with hot, dry and
rain-free conditions the override fires and rewrites a negative candidate —
the days-condition "≥ 1 day since last watering" does not stop it. -/
theorem guard_fires_when_watered_today :
    days_since (fun _ => some (5/4)) (3/2) (some "2026-10-12T08:00:00")
      = some 0
    ∧ pyOr (some 0) 999 = 999
    ∧ consistency_guard (fun _ => some (5/4)) 0 (3/2)
        { image_url := "img",
          last_watering_date := some "2026-10-12T08:00:00",
          weather_now := { temp_c := 32, humidity_pct := some 30 },
          weather_forecast := ⟨[]⟩ }
        { zalevat := false, oduvodneni := "ok" }
      = { zalevat := true, oduvodneni := guard_justification 999 32 30 }
    ∧ ({ zalevat := true, oduvodneni := guard_justification 999 32 30 }
        : DecisionResponse)
      ≠ { zalevat := false, oduvodneni := "ok" } := by
  have hds : days_since (fun _ => some (5/4)) (3/2)
      (some "2026-10-12T08:00:00") = some 0 := by
    unfold days_since
    simp only [if_neg (show ¬("2026-10-12T08:00:00" = "") by decide)]
    norm_num
  refine ⟨hds, rfl, ?_, by simp⟩
  simp only [consistency_guard, hds, pyOr, precip_sum_next_hours,
    List.foldl_nil]
  norm_num

/-- Two responses differing in the decision bit are different objects. -/
lemma ne_of_zalevat {a b : DecisionResponse} (h : a.zalevat ≠ b.zalevat) :
    a ≠ b :=
  fun he => h (he ▸ rfl)

/-- Claim C5 (amended): the call returns the candidate object itself —
mutated in place when the override fires — so after the call the caller's
`res` always holds exactly the returned response, never the pre-call values
of an overridden candidate. -/
theorem guard_call_alias (parse : String → Option ℚ) (tz now : ℚ)
    (req : DecisionRequest) (res : DecisionResponse) :
    (consistency_guard_call parse tz now req res).2
      = (consistency_guard_call parse tz now req res).1
    ∧ (consistency_guard_call parse tz now req res).1
      = consistency_guard parse tz now req res := by
  constructor
  · simp only [consistency_guard_call]
    split <;> rfl
  · simp only [consistency_guard_call, consistency_guard]
    split <;> rfl

/-- Counterexample for C5 as stated: at a firing input the candidate object
does not keep its prior decision — after the call it holds the override. -/
theorem guard_call_mutates_candidate :
    (consistency_guard_call (fun _ => none) 0 0
        { image_url := "i",
          weather_now := { temp_c := 35, humidity_pct := some 25 },
          weather_forecast := ⟨[]⟩ }
        { zalevat := false, oduvodneni := "looks fine" }).2.zalevat = true
    ∧ (consistency_guard_call (fun _ => none) 0 0
        { image_url := "i",
          weather_now := { temp_c := 35, humidity_pct := some 25 },
          weather_forecast := ⟨[]⟩ }
        { zalevat := false, oduvodneni := "looks fine" }).2
      ≠ { zalevat := false, oduvodneni := "looks fine" } := by
  have h1 : (consistency_guard_call (fun _ => none) 0 0
      { image_url := "i",
        weather_now := { temp_c := 35, humidity_pct := some 25 },
        weather_forecast := ⟨[]⟩ }
      { zalevat := false, oduvodneni := "looks fine" }).2.zalevat = true := by
    simp only [consistency_guard_call, days_since, pyOr,
      precip_sum_next_hours, List.foldl_nil]
    norm_num
  refine ⟨h1, ne_of_zalevat ?_⟩
  rw [h1]
  simp

/-- Counterexample for C4 as stated: the very same request/candidate pair
gives different guard outputs at two different current times — the clock
enters through the 12-hour rain window (and, in general, through
`days_since`), so the guard is not a function of its two arguments alone. -/
theorem guard_depends_on_now :
    consistency_guard (fun _ => none) 0 (21/2)
        { image_url := "i",
          weather_now := { temp_c := 35, humidity_pct := some 25 },
          weather_forecast :=
            ⟨[{ time := PyDatetime.naive (53/5),
                expected_precip_mm := some 5 }]⟩ }
        { zalevat := false, oduvodneni := "x" }
      = { zalevat := false, oduvodneni := "x" }
    ∧ consistency_guard (fun _ => none) 0 (23/2)
        { image_url := "i",
          weather_now := { temp_c := 35, humidity_pct := some 25 },
          weather_forecast :=
            ⟨[{ time := PyDatetime.naive (53/5),
                expected_precip_mm := some 5 }]⟩ }
        { zalevat := false, oduvodneni := "x" }
      ≠ { zalevat := false, oduvodneni := "x" } := by
  constructor
  · simp only [consistency_guard, days_since, pyOr, precip_sum_next_hours,
      List.foldl_cons, List.foldl_nil, localize]
    norm_num
  · have h1 : (consistency_guard (fun _ => none) 0 (23/2)
        { image_url := "i",
          weather_now := { temp_c := 35, humidity_pct := some 25 },
          weather_forecast :=
            ⟨[{ time := PyDatetime.naive (53/5),
                expected_precip_mm := some 5 }]⟩ }
        { zalevat := false, oduvodneni := "x" }).zalevat = true := by
      simp only [consistency_guard, days_since, pyOr, precip_sum_next_hours,
        List.foldl_cons, List.foldl_nil, localize]
      norm_num
    refine ne_of_zalevat ?_
    rw [h1]
    simp

/-- Claim C4 (amended): the guard is deterministic once the arguments *and*
the current time are fixed, and the current time influences the result only
through the derived day count and the 12-hour rain window: whenever those
two derived values agree at two instants, the guard output agrees. -/
theorem guard_deterministic_given_time (parse : String → Option ℚ) (tz : ℚ)
    (req : DecisionRequest) (res : DecisionResponse) (now1 now2 : ℚ)
    (hdays : days_since parse now1 req.last_watering_date
      = days_since parse now2 req.last_watering_date)
    (hrain : precip_sum_next_hours tz now1 req.weather_forecast 12
      = precip_sum_next_hours tz now2 req.weather_forecast 12) :
    consistency_guard parse tz now1 req res
      = consistency_guard parse tz now2 req res := by
  simp only [consistency_guard, hdays, hrain]

/-- Witness for C4's amended determinism statement at concrete inputs. -/
theorem guard_deterministic_given_time_witness :
    days_since (fun _ => none) 0
        (({ image_url := "i",
            weather_now := { temp_c := 20 },
            weather_forecast := ⟨[]⟩ } : DecisionRequest).last_watering_date)
      = days_since (fun _ => none) 1
        (({ image_url := "i",
            weather_now := { temp_c := 20 },
            weather_forecast := ⟨[]⟩ } : DecisionRequest).last_watering_date)
    ∧ precip_sum_next_hours 0 0
        (({ image_url := "i",
            weather_now := { temp_c := 20 },
            weather_forecast := ⟨[]⟩ } : DecisionRequest).weather_forecast) 12
      = precip_sum_next_hours 0 1
        (({ image_url := "i",
            weather_now := { temp_c := 20 },
            weather_forecast := ⟨[]⟩ } : DecisionRequest).weather_forecast) 12
    ∧ consistency_guard (fun _ => none) 0 0
        { image_url := "i",
          weather_now := { temp_c := 20 },
          weather_forecast := ⟨[]⟩ }
        { zalevat := true, oduvodneni := "y" }
      = consistency_guard (fun _ => none) 0 1
        { image_url := "i",
          weather_now := { temp_c := 20 },
          weather_forecast := ⟨[]⟩ }
        { zalevat := true, oduvodneni := "y" } :=
  ⟨rfl, rfl,
    guard_deterministic_given_time (fun _ => none) 0
      { image_url := "i",
        weather_now := { temp_c := 20 },
        weather_forecast := ⟨[]⟩ }
      { zalevat := true, oduvodneni := "y" } 0 1 rfl rfl⟩

/-- Claim C1 (amended): the guard's output is fully characterised by the
spec-side trigger `spec_guard_fires` — temperature ≥ 30 °C, known humidity
≤ 40 %, day count at least 1 after substituting 999 for an unknown *or zero*
count, forecast rain over 12 h strictly below 2 mm, and a negative
candidate.  When the trigger holds the result waters and its justification
is deterministically generated from the substituted day count, the
temperature and the humidity; otherwise the candidate is returned as is. -/
theorem consistency_guard_characterization (parse : String → Option ℚ)
    (tz now : ℚ) (req : DecisionRequest) (res : DecisionResponse) :
    consistency_guard parse tz now req res =
      if spec_guard_fires parse tz now req res then
        { zalevat := true,
          oduvodneni := guard_justification
            (pyOr (days_since parse now req.last_watering_date) 999)
            req.weather_now.temp_c
            (req.weather_now.humidity_pct.getD 100) }
      else res := by
  have h2 : decide ((req.weather_now.humidity_pct.getD 100 : ℚ) ≤ 40)
      = (match req.weather_now.humidity_pct with
         | some h => decide (h ≤ 40)
         | none => false) := by
    cases hh : req.weather_now.humidity_pct with
    | none => simp [hh]; norm_num
    | some h => simp [hh]
  have h3 : decide (1 ≤ pyOr (days_since parse now req.last_watering_date) 999)
      = (match days_since parse now req.last_watering_date with
         | none => true
         | some d => decide (d = 0) || decide (1 ≤ d)) := by
    cases hd : days_since parse now req.last_watering_date with
    | none => simp [pyOr]
    | some d =>
      by_cases d0 : d = 0
      · simp [pyOr, d0]
      · simp [pyOr, d0]
  have h4 : decide (precip_sum_next_hours tz now req.weather_forecast 12 < 2)
      = !decide (2 ≤ precip_sum_next_hours tz now req.weather_forecast 12) := by
    by_cases hr : precip_sum_next_hours tz now req.weather_forecast 12 < 2
    · simp [hr, not_le.mpr hr]
    · simp [hr, not_lt.mp hr]
  simp only [consistency_guard, spec_guard_fires, h2, h3, ← h4]

/-- Counterexample for C1 as stated: with a *known* day count of 0 (watered
earlier today) the claim's days-condition fails, so the claim demands the
candidate back unmodified — but the code substitutes 999 for the falsy 0 and
overrides the decision. -/
theorem guard_not_conservative_on_known_zero_days :
    days_since (fun _ => some (1/4)) (1/2) (some "2026-05-05") = some 0
    ∧ consistency_guard (fun _ => some (1/4)) 0 (1/2)
        { image_url := "i", last_watering_date := some "2026-05-05",
          weather_now := { temp_c := 31, humidity_pct := some 35 },
          weather_forecast := ⟨[]⟩ }
        { zalevat := false, oduvodneni := "fine" }
      ≠ { zalevat := false, oduvodneni := "fine" } := by
  have hds : days_since (fun _ => some (1/4)) (1/2) (some "2026-05-05")
      = some 0 := by
    unfold days_since
    simp only [if_neg (show ¬("2026-05-05" = "") by decide)]
    norm_num
  have h1 : (consistency_guard (fun _ => some (1/4)) 0 (1/2)
      { image_url := "i", last_watering_date := some "2026-05-05",
        weather_now := { temp_c := 31, humidity_pct := some 35 },
        weather_forecast := ⟨[]⟩ }
      { zalevat := false, oduvodneni := "fine" }).zalevat = true := by
    simp only [consistency_guard, hds, pyOr, precip_sum_next_hours,
      List.foldl_nil]
    norm_num
  refine ⟨hds, ne_of_zalevat ?_⟩
  rw [h1]
  simp

/-- The accumulator loop of `precip_sum_next_hours` computes the initial
value plus the sum of the in-window contributions. -/
lemma precip_foldl_shift (tz now endt : ℚ) (l : List WeatherForecastItem)
    (init : ℚ) :
    l.foldl (fun total it =>
      if now ≤ localize tz it.time ∧ localize tz it.time ≤ endt then
        match it.expected_precip_mm with
        | some p => total + p
        | none => total
      else total) init
    = init + ((l.filter (fun it =>
        decide (now ≤ localize tz it.time ∧ localize tz it.time ≤ endt))).map
        (fun it => it.expected_precip_mm.getD 0)).sum := by
  induction l generalizing init with
  | nil => simp
  | cons a as ih =>
    simp only [List.foldl_cons, List.filter_cons]
    by_cases hc : now ≤ localize tz a.time ∧ localize tz a.time ≤ endt
    · rw [if_pos hc]
      cases hp : a.expected_precip_mm with
      | none => simp [hc, hp, ih]
      | some p =>
        simp [hc, hp, ih]
        ring
    · rw [if_neg hc]
      simp [hc, ih]

/-- Claim C8 (amended): `precip_sum_next_hours` equals the sum of the
expected precipitation of exactly the items whose normalised timestamp lies
in the closed window `[now, now + hours]` (both boundaries included), where
a timestamp with no zone information is read as local time unchanged and a
missing expected-precipitation value contributes zero; the result is `0` for
an empty or fully-out-of-window forecast, and it is non-negative whenever
every item's expected precipitation is non-negative. -/
theorem precip_sum_window_characterization (tz now : ℚ)
    (forecast : WeatherForecast) (hours : ℤ) :
    precip_sum_next_hours tz now forecast hours
      = ((forecast.items.filter (fun it =>
            decide (now ≤ localize tz it.time
              ∧ localize tz it.time ≤ now + (hours : ℚ) / 24))).map
          (fun it => it.expected_precip_mm.getD 0)).sum
    ∧ (∀ w : ℚ, localize tz (PyDatetime.naive w) = w)
    ∧ (forecast.items.filter (fun it =>
          decide (now ≤ localize tz it.time
            ∧ localize tz it.time ≤ now + (hours : ℚ) / 24)) = []
        → precip_sum_next_hours tz now forecast hours = 0)
    ∧ ((∀ it ∈ forecast.items, 0 ≤ it.expected_precip_mm.getD 0)
        → 0 ≤ precip_sum_next_hours tz now forecast hours) := by
  have hsum : precip_sum_next_hours tz now forecast hours
      = ((forecast.items.filter (fun it =>
            decide (now ≤ localize tz it.time
              ∧ localize tz it.time ≤ now + (hours : ℚ) / 24))).map
          (fun it => it.expected_precip_mm.getD 0)).sum := by
    simp only [precip_sum_next_hours]
    rw [precip_foldl_shift]
    rw [zero_add]
  refine ⟨hsum, fun w => rfl, ?_, ?_⟩
  · intro hf
    rw [hsum, hf]
    simp
  · intro hpos
    rw [hsum]
    apply List.sum_nonneg
    intro x hx
    simp only [List.mem_map] at hx
    obtain ⟨it, hit, rfl⟩ := hx
    exact hpos it (List.mem_of_mem_filter hit)

/-- Witness for C8's amended statement on a concrete empty forecast. -/
theorem precip_sum_window_characterization_witness :
    precip_sum_next_hours 0 0 ⟨[]⟩ 12 = 0
    ∧ 0 ≤ precip_sum_next_hours 0 0 ⟨[]⟩ 12 :=
  ⟨(precip_sum_window_characterization 0 0 ⟨[]⟩ 12).2.2.1 rfl,
   (precip_sum_window_characterization 0 0 ⟨[]⟩ 12).2.2.2 (by simp)⟩

/-- Counterexample for C8 as stated: nothing in the data model keeps
`expected_precip_mm` non-negative, and on a forecast carrying `-1` mm at a
timestamp inside the window the function returns a negative number. -/
theorem precip_sum_negative_counterexample :
    precip_sum_next_hours 0 0
        ⟨[{ time := PyDatetime.naive 0, expected_precip_mm := some (-1) }]⟩ 12
      = -1
    ∧ precip_sum_next_hours 0 0
        ⟨[{ time := PyDatetime.naive 0, expected_precip_mm := some (-1) }]⟩ 12
      < 0 := by
  have h : precip_sum_next_hours 0 0
      ⟨[{ time := PyDatetime.naive 0, expected_precip_mm := some (-1) }]⟩ 12
      = -1 := by
    simp only [precip_sum_next_hours, List.foldl_cons, List.foldl_nil,
      localize]
    norm_num
  exact ⟨h, by rw [h]; norm_num⟩

/-- Claim C7 (amended): for every admissible pydantic field validation,
the reply validation of `call_openai` fails exactly when the reply is not
valid JSON or does not match the `DecisionResponse` schema — a JSON object
carrying a `zalevat` key whose value the field validator accepts as a
boolean and an `oduvodneni` key whose value it accepts as a string.  In
particular, a valid-JSON reply missing the boolean decision field or
missing the justification field is rejected as a failure, never silently
defaulted; and a reply whose keys hold an actual JSON boolean and an actual
JSON string — including the *empty* string, since `oduvodneni: str` has no
length constraint — is accepted with exactly those values, never coerced. -/
theorem call_openai_validation (C : PydanticCoercion) :
    (∀ r d, call_openai_parse C r = some d ↔
       ∃ fields jz jo, r = some (Json.obj fields)
         ∧ lookupField fields "zalevat" = some jz
         ∧ lookupField fields "oduvodneni" = some jo
         ∧ C.boolOf jz = some d.zalevat
         ∧ C.strOf jo = some d.oduvodneni)
    ∧ (∀ fields, lookupField fields "zalevat" = none →
        call_openai_parse C (some (Json.obj fields)) = none)
    ∧ (∀ fields, lookupField fields "oduvodneni" = none →
        call_openai_parse C (some (Json.obj fields)) = none)
    ∧ (∀ fields b s, lookupField fields "zalevat" = some (Json.bool b) →
        lookupField fields "oduvodneni" = some (Json.str s) →
        call_openai_parse C (some (Json.obj fields))
          = some { zalevat := b, oduvodneni := s }) := by
  refine ⟨?_, ?_, ?_, ?_⟩
  · intro r d
    constructor
    · intro h
      unfold call_openai_parse at h
      split at h
      · exact absurd h (by simp)
      · rename_i fields
        split at h
        · rename_i jz jo hz ho
          split at h
          · rename_i b s hb hs
            cases h
            exact ⟨fields, jz, jo, rfl, hz, ho, hb, hs⟩
          · exact absurd h (by simp)
        · exact absurd h (by simp)
      · exact absurd h (by simp)
    · rintro ⟨fields, jz, jo, rfl, hz, ho, hb, hs⟩
      simp only [call_openai_parse, hz, ho, hb, hs]
  · intro fields h
    simp [call_openai_parse, h]
  · intro fields h
    rcases hz : lookupField fields "zalevat" with _ | jz <;>
      simp [call_openai_parse, h, hz]
  · intro fields b s hz ho
    simp only [call_openai_parse, hz, ho, C.boolOf_bool, C.strOf_str]

/-- Counterexample for C7 as stated: a syntactically valid JSON reply whose
justification is an actual JSON string that happens to be empty is
*accepted* by the validation, not rejected as a failure.  Instantiated at
the field validation shared by every pydantic version, which by the
`PydanticCoercion` laws is the only behaviour possible on an actual boolean
and an actual string. -/
theorem empty_justification_accepted :
    call_openai_parse strictCoercion (some (Json.obj
        [("zalevat", Json.bool true), ("oduvodneni", Json.str "")]))
      = some { zalevat := true, oduvodneni := "" }
    ∧ call_openai_parse strictCoercion (some (Json.obj
        [("zalevat", Json.bool true), ("oduvodneni", Json.str "")])) ≠ none := by
  have h : call_openai_parse strictCoercion (some (Json.obj
      [("zalevat", Json.bool true), ("oduvodneni", Json.str "")]))
      = some { zalevat := true, oduvodneni := "" } := rfl
  exact ⟨h, by rw [h]; simp⟩

/-- Claim C6 (amended): at one fixed current time the prompt's facts summary
and the guard derive their numbers from the same two functions applied to
the same arguments — the summary embeds exactly `days_since` of the request
and the 1-decimal rounding of exactly `precip_sum_next_hours` over 12 h,
and the guard evaluates those same expressions.  The *embedded* values equal
the values the guard compares only up to the summary's rounding of the rain
sum and the guard's 999-substitution for a missing-or-zero day count: a
known nonzero day count passes through `pyOr` unchanged, and the rain values
coincide whenever the sum is already exact at one decimal.  Whenever the
guard rewrites the justification, the facts it embeds there come from these
same expressions. -/
theorem facts_single_source_of_truth (parse : String → Option ℚ)
    (tz now : ℚ) (req : DecisionRequest) :
    (build_messages_facts parse tz now req).days_since_last_watering
      = days_since parse now req.last_watering_date
    ∧ (build_messages_facts parse tz now req).rain_next_12h_mm
      = pyRound1 (precip_sum_next_hours tz now req.weather_forecast 12)
    ∧ (∀ d, days_since parse now req.last_watering_date = some d → d ≠ 0 →
        pyOr (days_since parse now req.last_watering_date) 999 = d)
    ∧ (pyRound1 (precip_sum_next_hours tz now req.weather_forecast 12)
          = precip_sum_next_hours tz now req.weather_forecast 12 →
        (build_messages_facts parse tz now req).rain_next_12h_mm
          = precip_sum_next_hours tz now req.weather_forecast 12)
    ∧ (∀ res : DecisionResponse,
        consistency_guard parse tz now req res = res
        ∨ (consistency_guard parse tz now req res).oduvodneni
          = guard_justification
              (pyOr (days_since parse now req.last_watering_date) 999)
              req.weather_now.temp_c
              (req.weather_now.humidity_pct.getD 100)) := by
  refine ⟨rfl, rfl, ?_, ?_, ?_⟩
  · intro d hd hne
    rw [hd]
    unfold pyOr
    simp [hne]
  · intro h
    exact h
  · intro res
    simp only [consistency_guard]
    split
    · right
      rfl
    · left
      rfl

/-- Witness for C6's amended statement at a concrete known-nonzero day count
and a rain sum that is exact at one decimal. -/
theorem facts_single_source_of_truth_witness :
    pyOr (days_since (fun _ => some (1/4)) (3/2) (some "d")) 999 = 1
    ∧ (build_messages_facts (fun _ => some (1/4)) 0 (3/2)
        { image_url := "i", last_watering_date := some "d",
          weather_now := { temp_c := 20 },
          weather_forecast := ⟨[]⟩ }).rain_next_12h_mm
      = precip_sum_next_hours 0 (3/2) ⟨[]⟩ 12 := by
  have hds : days_since (fun _ => some (1/4)) (3/2) (some "d") = some 1 := by
    unfold days_since
    simp only [if_neg (show ¬("d" = "") by decide)]
    norm_num
  have hrd : pyRound1 (precip_sum_next_hours 0 (3/2) ⟨[]⟩ 12)
      = precip_sum_next_hours 0 (3/2) ⟨[]⟩ 12 := by
    simp only [precip_sum_next_hours, List.foldl_nil]
    norm_num [pyRound1, roundHalfEven]
  exact ⟨(facts_single_source_of_truth (fun _ => some (1/4)) 0 (3/2)
      { image_url := "i", last_watering_date := some "d",
        weather_now := { temp_c := 20 },
        weather_forecast := ⟨[]⟩ }).2.2.1 1 hds (by decide),
    (facts_single_source_of_truth (fun _ => some (1/4)) 0 (3/2)
      { image_url := "i", last_watering_date := some "d",
        weather_now := { temp_c := 20 },
        weather_forecast := ⟨[]⟩ }).2.2.2.1 hrd⟩

/-- Counterexample for C6 as stated: with an unknown watering date and a
12-hour rain sum of 1.96 mm, the summary embeds `rain = 2.0` (rounded) and
`days = None`, while the guard compares the unrounded 1.96 (< 2, so it
fires) and evaluates the day count as 999 — the embedded values and the
values the guard evaluates are not equal. -/
theorem facts_vs_guard_mismatch :
    (build_messages_facts (fun _ => none) 0 0
        { image_url := "i",
          weather_now := { temp_c := 35, humidity_pct := some 25 },
          weather_forecast :=
            ⟨[{ time := PyDatetime.naive 0,
                expected_precip_mm := some (49/25) }]⟩ }).rain_next_12h_mm
      = 2
    ∧ precip_sum_next_hours 0 0
        ⟨[{ time := PyDatetime.naive 0,
            expected_precip_mm := some (49/25) }]⟩ 12
      = 49/25
    ∧ (2 : ℚ) ≠ 49/25
    ∧ (build_messages_facts (fun _ => none) 0 0
        { image_url := "i",
          weather_now := { temp_c := 35, humidity_pct := some 25 },
          weather_forecast :=
            ⟨[{ time := PyDatetime.naive 0,
                expected_precip_mm := some (49/25) }]⟩ }).days_since_last_watering
      = none
    ∧ pyOr none 999 = 999
    ∧ consistency_guard (fun _ => none) 0 0
        { image_url := "i",
          weather_now := { temp_c := 35, humidity_pct := some 25 },
          weather_forecast :=
            ⟨[{ time := PyDatetime.naive 0,
                expected_precip_mm := some (49/25) }]⟩ }
        { zalevat := false, oduvodneni := "n" }
      ≠ { zalevat := false, oduvodneni := "n" } := by
  have hrain : precip_sum_next_hours 0 0
      ⟨[{ time := PyDatetime.naive 0,
          expected_precip_mm := some (49/25) }]⟩ 12
      = 49/25 := by
    simp only [precip_sum_next_hours, List.foldl_cons, List.foldl_nil,
      localize]
    norm_num
  have hfacts : (build_messages_facts (fun _ => none) 0 0
      { image_url := "i",
        weather_now := { temp_c := 35, humidity_pct := some 25 },
        weather_forecast :=
          ⟨[{ time := PyDatetime.naive 0,
              expected_precip_mm := some (49/25) }]⟩ }).rain_next_12h_mm
      = 2 := by
    simp only [build_messages_facts, hrain]
    norm_num [pyRound1, roundHalfEven]
  have hz : (consistency_guard (fun _ => none) 0 0
      { image_url := "i",
        weather_now := { temp_c := 35, humidity_pct := some 25 },
        weather_forecast :=
          ⟨[{ time := PyDatetime.naive 0,
              expected_precip_mm := some (49/25) }]⟩ }
      { zalevat := false, oduvodneni := "n" }).zalevat = true := by
    simp only [consistency_guard, days_since, pyOr, hrain]
    norm_num
  refine ⟨hfacts, hrain, by norm_num, rfl, rfl, ne_of_zalevat ?_⟩
  rw [hz]
  simp

/-- Witness for C7's amended characterisation at a concrete well-formed
reply. -/
theorem call_openai_validation_witness :
    call_openai_parse strictCoercion (some (Json.obj
        [("zalevat", Json.bool false), ("oduvodneni", Json.str "ok")]))
      = some { zalevat := false, oduvodneni := "ok" } :=
  (call_openai_validation strictCoercion).2.2.2
    [("zalevat", Json.bool false), ("oduvodneni", Json.str "ok")]
    false "ok" rfl rfl
